import Mathlib

/-!
Shallow embedding of the AI API definition module of the Awn_Robot
repository (API_AI_Design.py). The module defines three value types
(BoundingBox, RobotPose, AI_Service_Status) and four mock AI service
interfaces (ASR_API, TTS_API, CV_API, Navigation_API). Every method of
the source prints one log line to the console and returns a canned
constant; no method reads or writes any instance attribute, and no class
declares any instance attribute. The console output is the only side
effect and is not modelled. Methods are embedded in explicit
state-passing style: a method of class C returning R becomes a Lean
function from C (and the arguments) to R times C, so that statements
about the instance state before and after a call can be made. Python
dictionaries with string keys are modelled as association lists in
insertion order, bytes values as lists of byte values, and NumPy arrays
as dense buffers with an inspectable shape.
-/

/-- Embeds the BoundingBox class: a bounding box for detected objects
and faces, with integer pixel coordinates x_min, y_min, x_max, y_max
stored by the constructor. -/
structure BoundingBox where
  x_min : Int
  y_min : Int
  x_max : Int
  y_max : Int
deriving DecidableEq

/-- Embeds BoundingBox.to_dict: a mapping holding the four named fields,
in the insertion order of the source. -/
def BoundingBox.to_dict (b : BoundingBox) : List (String × Int) :=
  [("x_min", b.x_min), ("y_min", b.y_min), ("x_max", b.x_max), ("y_max", b.y_max)]

/-- Modelled from the spec: deserialization of a BoundingBox from its
four-field mapping. The source file contains no deserializer; the spec
states that a BoundingBox serializes to a mapping with the four named
fields and that the serialize then deserialize round trip preserves all
four fields, so the deserializer reads exactly the four named fields and
yields an absent value when any of them is missing. -/
def BoundingBox.from_dict (d : List (String × Int)) : Option BoundingBox :=
  match d.lookup "x_min", d.lookup "y_min", d.lookup "x_max", d.lookup "y_max" with
  | some a, some b, some c, some e => some ⟨a, b, c, e⟩
  | _, _, _, _ => none

/-- Embeds the RobotPose class: the 2D position x, y and the
orientation theta stored by the constructor. -/
structure RobotPose where
  x : Float
  y : Float
  theta : Float

/-- Embeds the AI_Service_Status class: the operational status of an AI
service. In the source the constructor takes service_name, is_ready and
an error_message that defaults to None; every call site of this
embedding passes the arguments explicitly. -/
structure AI_Service_Status where
  service_name : String
  is_ready : Bool
  error_message : Option String
deriving DecidableEq

/-- Embeds the NumPy ndarray arguments of the CV methods as far as the
module uses them: a dense buffer whose shape is inspectable. The source
only reads image_frame.shape, inside the printed log line. -/
structure NdArray where
  shape : List Nat
  data : List Int

/-- Embeds the detection records returned by the CV methods: each is a
mapping holding the serialized bounding box under bbox, a confidence and
an id. -/
structure Detection where
  bbox : List (String × Int)
  confidence : Float
  id : String

/-- Embeds the ASR_API class. Its Python class body declares no
instance attribute, so the state is the empty structure. -/
structure ASR_API

/-- Embeds ASR_API.recognize_speech: the source prints a log line and
always returns the dummy text, regardless of the audio data and of the
language code; the instance is left unchanged. -/
def ASR_API.recognize_speech (s : ASR_API) (audio_data : List Nat) (lang_code : String) :
    Option String × ASR_API :=
  (some "Dummy Recognized Text", s)

/-- Embeds ASR_API.get_status: constructs a fresh status that is ready
with no error message; the instance is left unchanged. -/
def ASR_API.get_status (s : ASR_API) : AI_Service_Status × ASR_API :=
  (⟨"ASR Service", true, none⟩, s)

/-- Embeds the bytes literal returned by TTS_API.synthesize_speech, as
the byte values of the ASCII text dummy_audio_bytes. -/
def dummy_audio_bytes : List Nat :=
  [100, 117, 109, 109, 121, 95, 97, 117, 100, 105, 111, 95, 98, 121, 116, 101, 115]

/-- Embeds the TTS_API class. Its Python class body declares no
instance attribute, so the state is the empty structure. -/
structure TTS_API

/-- Embeds TTS_API.synthesize_speech: the source prints a log line and
always returns the dummy audio bytes, regardless of the text, the
language code and the voice id; the instance is left unchanged. -/
def TTS_API.synthesize_speech (s : TTS_API) (text : String) (lang_code : String) (voice_id : String) :
    Option (List Nat) × TTS_API :=
  (some dummy_audio_bytes, s)

/-- Embeds TTS_API.get_status: constructs a fresh status that is ready
with no error message; the instance is left unchanged. -/
def TTS_API.get_status (s : TTS_API) : AI_Service_Status × TTS_API :=
  (⟨"TTS Service", true, none⟩, s)

/-- Embeds the CV_API class. Its Python class body declares no instance
attribute, so the state is the empty structure. -/
structure CV_API

/-- Embeds CV_API.detect_faces: the source prints a log line and always
returns one dummy detection, with the serialized bounding box of
BoundingBox(0, 0, 10, 10), confidence 0.0 and id dummy; the instance is
left unchanged. -/
def CV_API.detect_faces (s : CV_API) (image_frame : NdArray) : List Detection × CV_API :=
  ([⟨(BoundingBox.mk 0 0 10 10).to_dict, 0.0, "dummy"⟩], s)

/-- Embeds CV_API.recognize_object: the source prints a log line and
always returns the empty list, regardless of the frame and of the
object list; the instance is left unchanged. -/
def CV_API.recognize_object (s : CV_API) (image_frame : NdArray) (object_list : Option (List String)) :
    List Detection × CV_API :=
  ([], s)

/-- Embeds CV_API.get_status: constructs a fresh status that is ready
with no error message; the instance is left unchanged. -/
def CV_API.get_status (s : CV_API) : AI_Service_Status × CV_API :=
  (⟨"CV Service", true, none⟩, s)

/-- Embeds the Navigation_API class. Its Python class body declares no
instance attribute, so the state is the empty structure; in particular
the source stores no navigation goal state of any kind. -/
structure Navigation_API

/-- Embeds Navigation_API.get_current_pose: always returns the fixed
dummy pose; the instance is left unchanged. -/
def Navigation_API.get_current_pose (s : Navigation_API) : RobotPose × Navigation_API :=
  (⟨0.0, 0.0, 0.0⟩, s)

/-- Embeds Navigation_API.set_goal_pose: the source prints a log line
and always returns True without recording the goal anywhere; the
instance is left unchanged. -/
def Navigation_API.set_goal_pose (s : Navigation_API) (target_pose : RobotPose) :
    Bool × Navigation_API :=
  (true, s)

/-- Embeds Navigation_API.cancel_navigation: the source prints a log
line and always returns True; the instance is left unchanged. -/
def Navigation_API.cancel_navigation (s : Navigation_API) : Bool × Navigation_API :=
  (true, s)

/-- Embeds Navigation_API.get_map_data: always returns the minimal
dummy occupancy grid, a one by one array holding 0; the instance is
left unchanged. -/
def Navigation_API.get_map_data (s : Navigation_API) : Option (List (List Int)) × Navigation_API :=
  (some [[0]], s)

/-- Embeds Navigation_API.get_status: constructs a fresh status that is
ready with no error message; the instance is left unchanged. -/
def Navigation_API.get_status (s : Navigation_API) : AI_Service_Status × Navigation_API :=
  (⟨"Navigation Service", true, none⟩, s)

/-- Modelled from the spec: the five navigation states of the claimed
goal state machine (IDLE, NAVIGATING, SUCCEEDED, CANCELLED, FAILED). No
such state appears anywhere in the source; this type exists only so the
claimed transitions can be stated against the code. -/
inductive Spec_NavState where
  | IDLE
  | NAVIGATING
  | SUCCEEDED
  | CANCELLED
  | FAILED
deriving DecidableEq

/-- The list of every AI_Service_Status value the module produces: the
results of get_status on each of the four services. These are the only
expressions in the source that construct an AI_Service_Status. -/
def produced_statuses : List AI_Service_Status :=
  [(ASR_API.mk.get_status).1, (TTS_API.mk.get_status).1,
   (CV_API.mk.get_status).1, (Navigation_API.mk.get_status).1]

/-- C1 counterexample: on the empty audio input with language code
ar-SA, recognize_speech returns a present value, not the claimed absent
one, so the isNone test on its result is false. -/
theorem recognize_speech_empty_audio_present :
    ((ASR_API.mk.recognize_speech [] "ar-SA").1).isNone = false :=
  rfl

/-- C1 amended: for the empty audio input with language code ar-SA,
recognize_speech returns the present dummy text and, being total in the
embedding, does not raise. -/
theorem recognize_speech_empty_audio_dummy_text :
    (ASR_API.mk.recognize_speech [] "ar-SA").1 = some "Dummy Recognized Text" :=
  rfl

/-- C2 counterexample: the instance state after set_goal_pose equals
the instance state after the subsequent cancel_navigation, so no
assignment of navigation states to program states can send the first to
NAVIGATING and the second to CANCELLED; the mock realizes no navigation
goal state machine. -/
theorem nav_no_state_machine :
    ((Navigation_API.mk.set_goal_pose ⟨1.0, 1.0, 0.0⟩).2.cancel_navigation).2
      = (Navigation_API.mk.set_goal_pose ⟨1.0, 1.0, 0.0⟩).2
    ∧ ¬ ∃ navState : Navigation_API → Spec_NavState,
        navState (Navigation_API.mk.set_goal_pose ⟨1.0, 1.0, 0.0⟩).2 = Spec_NavState.NAVIGATING
          ∧ navState ((Navigation_API.mk.set_goal_pose ⟨1.0, 1.0, 0.0⟩).2.cancel_navigation).2
              = Spec_NavState.CANCELLED := by
  refine ⟨rfl, ?_⟩
  rintro ⟨f, h1, h2⟩
  rw [show ((Navigation_API.mk.set_goal_pose ⟨1.0, 1.0, 0.0⟩).2.cancel_navigation).2
        = (Navigation_API.mk.set_goal_pose ⟨1.0, 1.0, 0.0⟩).2 from rfl] at h2
  exact absurd (h1.symm.trans h2) (by decide)

/-- C2 amended: in every state, set_goal_pose returns true and
cancel_navigation returns true, and neither call changes the
Navigation_API instance state; the mock therefore performs no state
transition at all, and a later set_goal_pose again returns true. -/
theorem nav_calls_return_true_and_keep_state (s : Navigation_API) (p : RobotPose) :
    (s.set_goal_pose p).1 = true ∧ (s.set_goal_pose p).2 = s
      ∧ (s.cancel_navigation).1 = true ∧ (s.cancel_navigation).2 = s :=
  ⟨rfl, rfl, rfl, rfl⟩

/-- C3 counterexample: synthesize_speech on the text Hello returns the
present dummy bytes for the language code en-US, and there exists no
language code and voice id at all for which it returns an absent value;
the claimed absent-value case for an unsupported language is unrealized
in the code. -/
theorem synthesize_speech_never_absent :
    (TTS_API.mk.synthesize_speech "Hello" "en-US" "default_female").1 = some dummy_audio_bytes
    ∧ ¬ ∃ lang voice, (TTS_API.mk.synthesize_speech "Hello" lang voice).1 = none := by
  refine ⟨rfl, ?_⟩
  rintro ⟨lang, voice, h⟩
  simp [TTS_API.synthesize_speech] at h

/-- C3 amended: synthesize_speech on the text Hello returns the fixed
dummy byte sequence of length 17, hence non-empty, for every language
code and voice id alike; it never returns an absent value. -/
theorem synthesize_speech_hello_dummy_bytes (t : TTS_API) (lang_code : String) (voice_id : String) :
    (t.synthesize_speech "Hello" lang_code voice_id).1 = some dummy_audio_bytes
    ∧ dummy_audio_bytes.length = 17 :=
  ⟨rfl, rfl⟩

/-- C4: recognize_object with the object list cup returns the empty
sequence for every frame, in particular for every frame containing no
cup; the function is total in the embedding, so it neither raises nor
signals an error. -/
theorem recognize_object_cup_empty (c : CV_API) (frame : NdArray) :
    (c.recognize_object frame (some ["cup"])).1 = [] :=
  rfl

/-- C5: for every well-formed image buffer, detect_faces and
recognize_object return sequences, the first the one-element dummy
detection list and the second the empty list; both are total functions
of the embedding, so neither raises. -/
theorem cv_methods_return_sequences (c : CV_API) (frame : NdArray) (objs : Option (List String)) :
    (c.detect_faces frame).1 = [⟨(BoundingBox.mk 0 0 10 10).to_dict, 0.0, "dummy"⟩]
    ∧ (c.recognize_object frame objs).1 = [] :=
  ⟨rfl, rfl⟩

/-- C6: for every BoundingBox with x_min at most x_max and y_min at
most y_max, deserializing its four-field serialization yields a present
BoundingBox equal to the original in all four fields. -/
theorem bounding_box_round_trip (b : BoundingBox)
    (hx : b.x_min ≤ b.x_max) (hy : b.y_min ≤ b.y_max) :
    BoundingBox.from_dict b.to_dict = some b := by
  cases b
  rfl

/-- C6 witness: the round trip at the concrete box with corners 0, 0,
10, 10, whose side conditions hold. -/
theorem bounding_box_round_trip_witness :
    ((0 : Int) ≤ 10 ∧ (0 : Int) ≤ 10)
    ∧ BoundingBox.from_dict (BoundingBox.mk 0 0 10 10).to_dict = some (BoundingBox.mk 0 0 10 10) :=
  ⟨⟨by decide, by decide⟩,
   bounding_box_round_trip (BoundingBox.mk 0 0 10 10) (by decide) (by decide)⟩

/-- C7: for every service instance, calling get_status a second time on
the instance returned by the first call yields a ServiceStatus equal to
the first result, for all four services; no intervening state change is
possible since neither call changes the instance. -/
theorem get_status_idempotent (a : ASR_API) (t : TTS_API) (c : CV_API) (n : Navigation_API) :
    ((a.get_status).2.get_status).1 = (a.get_status).1
    ∧ ((t.get_status).2.get_status).1 = (t.get_status).1
    ∧ ((c.get_status).2.get_status).1 = (c.get_status).1
    ∧ ((n.get_status).2.get_status).1 = (n.get_status).1 :=
  ⟨rfl, rfl, rfl, rfl⟩

/-- C8: every AI_Service_Status value the module produces has an absent
error_message or a false is_ready flag; the disjunction is the
contrapositive form of the claimed invariant that error_message is
non-null only when is_ready is false. -/
theorem status_error_message_only_when_not_ready :
    ∀ st ∈ produced_statuses, st.error_message = none ∨ st.is_ready = false := by
  decide

/-- C8 witness: the invariant at the concrete status produced by the
ASR service. -/
theorem status_error_message_only_when_not_ready_witness :
    (ASR_API.mk.get_status).1 ∈ produced_statuses
    ∧ ((ASR_API.mk.get_status).1.error_message = none
        ∨ (ASR_API.mk.get_status).1.is_ready = false) :=
  ⟨by decide, status_error_message_only_when_not_ready (ASR_API.mk.get_status).1 (by decide)⟩

/-- C9: cancel_navigation returns true in every state of the
Navigation_API instance; the instance carries no attributes, so the
quantifier covers every reachable state, the idle one included, and the
call is a no-op success there. -/
theorem cancel_navigation_always_true (s : Navigation_API) :
    (s.cancel_navigation).1 = true :=
  rfl

/-- C10: for every input frame, detect_faces returns exactly one
detection, whose bbox is the serialization of BoundingBox(0, 0, 10,
10), whose confidence is 0.0 and whose id is dummy, so the result has
length one and is never empty; and get_map_data returns the present one
by one grid holding 0, never an absent value. -/
theorem mock_dummy_outputs (c : CV_API) (frame : NdArray) (n : Navigation_API) :
    (c.detect_faces frame).1 = [⟨(BoundingBox.mk 0 0 10 10).to_dict, 0.0, "dummy"⟩]
    ∧ ((c.detect_faces frame).1).length = 1
    ∧ (n.get_map_data).1 = some [[0]]
    ∧ ((n.get_map_data).1).isNone = false :=
  ⟨rfl, rfl, rfl, rfl⟩
